import Mathlib

/-!
Verification of the Kalshi_Quant structural-arbitrage core.

Shallow embedding of the pricing engine (`src/utils/orderbook.py`,
`src/db/models.py`), the event classifier (`src/engine/classifier.py`),
the arbitrage analyzer and signal generator
(`src/strategies/structural_arb.py`) and the execution manager
(`src/engine/execution.py`).  Python floats carrying cent prices are
modelled as rationals (all arithmetic performed on them is exact),
Python ints as `Int`/`Nat`, `Optional` fields as `Option`.
-/

namespace KalshiQuant

/-! ### Pricing engine: `db/models.py` MarketPricing, `utils/orderbook.py` -/

/-- `MarketPricing` dataclass from `src/db/models.py`.  The bid fields are
non-optional floats in the source; asks and spreads are `Optional[float]`.
(`datetime` fields do not occur here.) -/
structure MarketPricing where
  best_yes_bid : ℚ
  best_no_bid : ℚ
  best_yes_ask : Option ℚ := none
  best_no_ask : Option ℚ := none
  yes_spread : Option ℚ := none
  no_spread : Option ℚ := none
  yes_bid_depth : ℤ := 0
  no_bid_depth : ℤ := 0
  deriving DecidableEq

/-- `MarketPricing.calculate_implied_asks`: fill a missing ask from the
opposite bid (`100 - bid`).  The bid fields are non-optional floats in the
source, so the `is not None` guards on them are always true. -/
def MarketPricing.calculate_implied_asks (p : MarketPricing) : MarketPricing :=
  let p := if p.best_yes_ask = none then
      { p with best_yes_ask := some (100 - p.best_no_bid) } else p
  if p.best_no_ask = none then
      { p with best_no_ask := some (100 - p.best_yes_bid) } else p

/-- `MarketPricing.calculate_spreads`: spread = ask - bid, only when the ask
exists. -/
def MarketPricing.calculate_spreads (p : MarketPricing) : MarketPricing :=
  let p := match p.best_yes_ask with
    | some a => { p with yes_spread := some (a - p.best_yes_bid) }
    | none => p
  match p.best_no_ask with
  | some a => { p with no_spread := some (a - p.best_no_bid) }
  | none => p

/-- One orderbook level: a `[price, quantity]` pair (ints in the source,
price converted to float on extraction). -/
abbrev Level := ℚ × ℤ

/-- Python `x or 0.0` applied to an `Optional[float]`: `None` becomes `0.0`
(and a `0.0` value stays `0.0`, which coincides with `getD`). -/
def orZero : Option ℚ → ℚ
  | none => 0
  | some v => v

/-- `extract_best_prices` from `src/utils/orderbook.py`.  Best bid is the
last element (books sorted low→high); if both sides are empty return
`None`; if exactly one side is empty return partial data with the missing
bid replaced by `0.0` and no asks; otherwise apply the implied-ask rule
and compute spreads. -/
def extract_best_prices (yes_bids no_bids : List Level) : Option MarketPricing :=
  if yes_bids = [] ∧ no_bids = [] then none
  else
    let best_yes_bid := yes_bids.getLast?.map Prod.fst
    let best_no_bid := no_bids.getLast?.map Prod.fst
    let yes_depth := (yes_bids.map Prod.snd).sum
    let no_depth := (no_bids.map Prod.snd).sum
    match best_yes_bid, best_no_bid with
    | some yb, some nb =>
        some (MarketPricing.calculate_spreads
          (MarketPricing.calculate_implied_asks
            { best_yes_bid := yb, best_no_bid := nb,
              yes_bid_depth := yes_depth, no_bid_depth := no_depth }))
    | yb, nb =>
        some { best_yes_bid := orZero yb, best_no_bid := orZero nb,
               yes_bid_depth := yes_depth, no_bid_depth := no_depth }

/-! ### Event classifier: `src/engine/classifier.py` -/

/-- `EventType` enum from `src/engine/classifier.py`. -/
inductive EventType where
  | mutually_exclusive
  | independent
  | unknown
  deriving DecidableEq

/-- `EventClassification` dataclass (the `raw_metadata` dict, being free-form
JSON that no claim touches, is not modelled). -/
structure EventClassification where
  event_ticker : String
  event_type : EventType
  confidence : ℚ
  source : String
  title : Option String := none
  category : Option String := none
  deriving DecidableEq

/-- `EventClassification.is_safe_for_arb`. -/
def EventClassification.is_safe_for_arb (c : EventClassification) : Bool :=
  c.event_type = EventType.mutually_exclusive

/-- The fields of the event-metadata JSON that `classifier.py` reads:
`metadata.get('event_ticker')`, `metadata.get('mutually_exclusive')`,
`metadata.get('collateral_return_type', '')`, `metadata.get('title')`,
`metadata.get('category')`. -/
structure EventMetadata where
  event_ticker : Option String := none
  mutually_exclusive : Option Bool := none
  collateral_return_type : Option String := none
  title : Option String := none
  category : Option String := none
  deriving DecidableEq

/-- Does the first character list start with the second?  (Helper for the
Python `in` substring test.) -/
def leadMatch : List Char → List Char → Bool
  | _, [] => true
  | [], _ :: _ => false
  | h :: hs, n :: ns => h = n && leadMatch hs ns

/-- Is the second character list a contiguous sublist of the first?
(Helper for the Python `in` substring test.) -/
def charSub : List Char → List Char → Bool
  | [], needle => leadMatch [] needle
  | h :: hs, needle => leadMatch (h :: hs) needle || charSub hs needle

/-- Python `needle in hay` on strings, performed on character lists. -/
def strHas (hay needle : List Char) : Bool :=
  charSub hay needle

/-- Python `str.lower()` as a character list (the strings involved are
ASCII, where `Char.toLower` agrees with Python). -/
def lowerList (s : String) : List Char :=
  s.toList.map Char.toLower

/-- Python `str.upper()` as a character list (ASCII). -/
def upperList (s : String) : List Char :=
  s.toList.map Char.toUpper

/-- `EventClassifier.QUALIFYING_KEYWORDS`. -/
def QUALIFYING_KEYWORDS : List String :=
  ["nominee", "winner", "next pope", "president elect",
   "first to", "who will win", "who will be",
   "champion", "governor", "senator", "mayor",
   "super bowl", "world series", "nba finals"]

/-- `EventClassifier.DISQUALIFYING_KEYWORDS`. -/
def DISQUALIFYING_KEYWORDS : List String :=
  ["pardon", "cabinet", "rate", "price", "by ", "by?",
   "approval", "poll", "gdp", "inflation", "unemployment",
   "temperature", "rain", "weather", "how many", "total",
   "combined", "cumulative", "schedule", "rescheduled"]

/-- `EventClassifier._classify_by_metadata`: trust an explicit
`mutually_exclusive` flag with confidence 1.0 (source `api_metadata`);
otherwise infer MutuallyExclusive at 0.9 when the collateral return type
contains `MEC`; otherwise `None`. -/
def classify_by_metadata (m : EventMetadata) : Option EventClassification :=
  let event_ticker := m.event_ticker.getD "unknown"
  match m.mutually_exclusive with
  | some me_flag =>
      some { event_ticker,
             event_type := if me_flag then EventType.mutually_exclusive
                           else EventType.independent,
             confidence := 1,
             source := "api_metadata",
             title := m.title, category := m.category }
  | none =>
      let collateral_type := m.collateral_return_type.getD ""
      if strHas (upperList collateral_type) "MEC".toList then
        some { event_ticker,
               event_type := EventType.mutually_exclusive,
               confidence := 9/10,
               source := "collateral_type",
               title := m.title, category := m.category }
      else none

/-- `EventClassifier._classify_by_keywords`: disqualifying keywords are
checked before qualifying ones; a disqualify match yields Independent at
0.6, a qualify match MutuallyExclusive at 0.5, no match Unknown at 0. -/
def classify_by_keywords (event_ticker : String)
    (title category : Option String) : EventClassification :=
  let text := lowerList (event_ticker ++ " " ++ title.getD "" ++ " " ++ category.getD "")
  match DISQUALIFYING_KEYWORDS.find? (fun k => strHas text (lowerList k)) with
  | some keyword =>
      { event_ticker, event_type := EventType.independent, confidence := 3/5,
        source := "keyword_disqualify:" ++ keyword, title, category }
  | none =>
      match QUALIFYING_KEYWORDS.find? (fun k => strHas text (lowerList k)) with
      | some keyword =>
          { event_ticker, event_type := EventType.mutually_exclusive,
            confidence := 1/2,
            source := "keyword_qualify:" ++ keyword, title, category }
      | none =>
          { event_ticker, event_type := EventType.unknown, confidence := 0,
            source := "no_match", title, category }

/-- `EventClassifier.classify`, as a function of the metadata the network
fetch produced (`None` when the fetch failed).  The TTL cache only replays
earlier results of this same computation and is not modelled; the
`raw_metadata` attachment on the keyword path carries no classification
content. -/
def classify (metadata : Option EventMetadata)
    (event_ticker : String) : EventClassification :=
  match metadata with
  | some m =>
      match classify_by_metadata m with
      | some c => c
      | none => classify_by_keywords event_ticker m.title m.category
  | none => classify_by_keywords event_ticker none none

/-- `EventClassifier.filter_mutually_exclusive`, parameterised over the
per-ticker classification (`self.classify`): keep exactly the tickers whose
classification is MutuallyExclusive with confidence at least
`min_confidence` (default 0.8), preserving order. -/
def filter_mutually_exclusive (classifyF : String → EventClassification)
    (event_tickers : List String) (min_confidence : ℚ := 4/5) : List String :=
  event_tickers.filter (fun t =>
    (classifyF t).event_type = EventType.mutually_exclusive
      ∧ (classifyF t).confidence ≥ min_confidence)

/-! ### Arbitrage analyzer and signal generator: `src/strategies/structural_arb.py` -/

/-- `MarketInfo` dataclass from `src/db/models.py` (the `expiration_time`
datetime, which no claim touches, is not modelled). -/
structure MarketInfo where
  ticker : String
  series_ticker : String
  title : String
  status : String
  volume_24h : ℤ
  event_ticker : Option String := none
  open_interest : Option ℤ := none
  deriving DecidableEq

/-- `MarketWithOrderbook` from `src/engine/scanner.py` (the free-form
`analysis` dict is not modelled; the raw orderbook is the two bid arrays). -/
structure MarketWithOrderbook where
  market : MarketInfo
  orderbook : Option (List Level × List Level) := none
  pricing : Option MarketPricing := none
  deriving DecidableEq

/-- `EventAnalysis` dataclass (the `timestamp` datetime is not modelled). -/
structure EventAnalysis where
  event_ticker : String
  markets : List MarketWithOrderbook
  sum_yes_asks : ℚ
  sum_yes_bids : ℚ
  buy_arb_profit : ℚ
  sell_arb_profit : ℚ
  market_count : ℕ
  total_markets : ℕ := 0
  aggregate_volume : ℤ := 0
  deriving DecidableEq

/-- `EventAnalysis.coverage`. -/
def EventAnalysis.coverage (a : EventAnalysis) : ℚ :=
  if a.total_markets = 0 then 0 else (a.market_count : ℚ) / (a.total_markets : ℚ)

/-- `EventAnalysis.has_buy_arb`. -/
def EventAnalysis.has_buy_arb (a : EventAnalysis) : Bool :=
  a.buy_arb_profit > 0

/-- `EventAnalysis.has_sell_arb`. -/
def EventAnalysis.has_sell_arb (a : EventAnalysis) : Bool :=
  a.sell_arb_profit > 0

/-- `EventAnalysis.has_opportunity`. -/
def EventAnalysis.has_opportunity (a : EventAnalysis) : Bool :=
  a.has_buy_arb || a.has_sell_arb

/-- `EventAnalysis.is_high_quality` (defaults: 90% coverage, 10,000
contracts). -/
def EventAnalysis.is_high_quality (a : EventAnalysis)
    (min_coverage : ℚ := 9/10) (min_contracts : ℤ := 10000) : Bool :=
  if ¬a.has_opportunity then false
  else if a.coverage < min_coverage then false
  else if a.aggregate_volume < min_contracts then false
  else true

/-- The constructor parameters of `StructuralArbStrategy`. -/
structure StrategyConfig where
  buy_threshold : ℚ := 98
  sell_threshold : ℚ := 102
  min_markets : ℕ := 2
  max_markets : ℕ := 50
  default_size : ℕ := 10
  require_two_sided : Bool := true
  deriving DecidableEq

/-- `StructuralArbStrategy` defaults. -/
def defaultStrategyConfig : StrategyConfig := {}

/-- State of the accumulation loop inside
`StructuralArbStrategy._analyze_event`. -/
structure AnalyzeState where
  sum_yes_asks : ℚ
  sum_yes_bids : ℚ
  valid_markets : List MarketWithOrderbook
  aggregate_volume : ℤ
  deriving DecidableEq

/-- One iteration of the `_analyze_event` loop: accumulate 24h volume from
every market, then skip the market unless it has pricing with a positive
YES ask (and, when `require_two_sided`, a positive YES bid); otherwise add
its ask and bid to the sums and append it to the valid list.  The source's
`yes_bid if yes_bid else 0` summand is written as the truthiness test it
is; `yes_bid is None` is always false since the field is a non-optional
float. -/
def analyzeStep (cfg : StrategyConfig) (st : AnalyzeState)
    (m : MarketWithOrderbook) : AnalyzeState :=
  let st := { st with aggregate_volume := st.aggregate_volume + m.market.volume_24h }
  match m.pricing with
  | none => st
  | some pricing =>
      match pricing.best_yes_ask with
      | none => st
      | some yes_ask =>
          if yes_ask ≤ 0 then st
          else
            let yes_bid := pricing.best_yes_bid
            if cfg.require_two_sided ∧ yes_bid ≤ 0 then st
            else
              { st with
                sum_yes_asks := st.sum_yes_asks + yes_ask,
                sum_yes_bids := st.sum_yes_bids + (if yes_bid = 0 then 0 else yes_bid),
                valid_markets := st.valid_markets ++ [m] }

/-- `StructuralArbStrategy._analyze_event`: fold the loop over the markets,
then derive the profits (`-100` sentinels when a sum is zero) and assemble
the `EventAnalysis`. -/
def analyze_event (cfg : StrategyConfig) (event_ticker : String)
    (markets : List MarketWithOrderbook) : EventAnalysis :=
  let st := markets.foldl (analyzeStep cfg) ⟨0, 0, [], 0⟩
  { event_ticker,
    markets := st.valid_markets,
    sum_yes_asks := st.sum_yes_asks,
    sum_yes_bids := st.sum_yes_bids,
    buy_arb_profit := if st.sum_yes_asks > 0 then 100 - st.sum_yes_asks else -100,
    sell_arb_profit := if st.sum_yes_bids > 0 then st.sum_yes_bids - 100 else -100,
    market_count := st.valid_markets.length,
    total_markets := markets.length,
    aggregate_volume := st.aggregate_volume }

/-- `Side` enum.  Modelled from the spec: `strategies/base.py` is not in
the sources, only its import sites; §3 of the spec gives a Signal "side
(buy/sell)" and `execution.py` matches on `Side.BUY`. -/
inductive Side where
  | buy
  | sell
  deriving DecidableEq

/-- Python `int(...)` on a float: truncation toward zero. -/
def pyInt (q : ℚ) : ℤ := q.num / (q.den : ℤ)

/-- `Signal` dataclass.  Modelled from the spec: `strategies/base.py` is
not in the sources; §3 gives one leg as ticker, side, price, size,
originating strategy (the confidence and free-form metadata fields, set
only on some construction sites and read by no claim, are not modelled). -/
structure Signal where
  ticker : String
  side : Side
  price : ℤ
  size : ℕ
  strategy_name : String
  deriving DecidableEq

/-- `SignalGroup` dataclass.  Modelled from the spec: `strategies/base.py`
is not in the sources; §3 gives the complete basket for one event as an
ordered set of Signals, expected profit and a human label, and
`structural_arb.py` constructs it with `signals`, `group_name`,
`event_ticker`, `expected_profit`, `strategy_name`. -/
structure SignalGroup where
  signals : List Signal
  group_name : String
  event_ticker : String
  expected_profit : ℚ
  strategy_name : String
  deriving DecidableEq

/-- The body of the BUY-leg loop in `generate_signal_groups`: the guard
`if market.pricing and market.pricing.best_yes_ask` (pricing not `None`,
ask neither `None` nor `0.0`) and the Buy signal at the `int` of the best
YES ask. -/
def buySignalOpt (cfg : StrategyConfig) (m : MarketWithOrderbook) : Option Signal :=
  match m.pricing with
  | none => none
  | some p =>
      match p.best_yes_ask with
      | none => none
      | some ask =>
          if ask = 0 then none
          else some { ticker := m.market.ticker, side := Side.buy,
                      price := pyInt ask, size := cfg.default_size,
                      strategy_name := "StructuralArb" }

/-- The BUY legs built by `generate_signal_groups` for one analysis: one
Buy signal per analysis market passing the truthiness guard. -/
def buySignals (cfg : StrategyConfig) (a : EventAnalysis) : List Signal :=
  a.markets.filterMap (buySignalOpt cfg)

/-- The body of the SELL-leg loop in `generate_signal_groups`: the guard
`if market.pricing and market.pricing.best_yes_bid` and the Sell signal at
the `int` of the best YES bid. -/
def sellSignalOpt (cfg : StrategyConfig) (m : MarketWithOrderbook) : Option Signal :=
  match m.pricing with
  | none => none
  | some p =>
      if p.best_yes_bid = 0 then none
      else some { ticker := m.market.ticker, side := Side.sell,
                  price := pyInt p.best_yes_bid, size := cfg.default_size,
                  strategy_name := "StructuralArb" }

/-- The SELL legs built by `generate_signal_groups` for one analysis: one
Sell signal per analysis market passing the truthiness guard. -/
def sellSignals (cfg : StrategyConfig) (a : EventAnalysis) : List Signal :=
  a.markets.filterMap (sellSignalOpt cfg)

/-- The body of the `generate_signal_groups` loop for one analysis: a
BUY_ALL group when `0 < sum_yes_asks < buy_threshold` and the leg list is
non-empty, then a SELL_ALL group when `sum_yes_bids > sell_threshold` and
its leg list is non-empty. -/
def signal_groups_for_analysis (cfg : StrategyConfig)
    (a : EventAnalysis) : List SignalGroup :=
  (if a.sum_yes_asks < cfg.buy_threshold ∧ a.sum_yes_asks > 0 then
      let buy_signals := buySignals cfg a
      if buy_signals = [] then []
      else [{ signals := buy_signals,
              group_name := "BUY_ALL_" ++ a.event_ticker,
              event_ticker := a.event_ticker,
              expected_profit := (100 - a.sum_yes_asks) * (cfg.default_size : ℚ) / 100,
              strategy_name := "StructuralArb" }]
    else []) ++
  (if a.sum_yes_bids > cfg.sell_threshold then
      let sell_signals := sellSignals cfg a
      if sell_signals = [] then []
      else [{ signals := sell_signals,
              group_name := "SELL_ALL_" ++ a.event_ticker,
              event_ticker := a.event_ticker,
              expected_profit := (a.sum_yes_bids - 100) * (cfg.default_size : ℚ) / 100,
              strategy_name := "StructuralArb" }]
    else [])

/-- `StructuralArbStrategy.generate_signal_groups`, over the per-event
analyses produced by `analyze_all_events`: concatenate each analysis's
groups in order. -/
def generate_signal_groups (cfg : StrategyConfig)
    (analyses : List EventAnalysis) : List SignalGroup :=
  analyses.flatMap (signal_groups_for_analysis cfg)

/-! ### Execution manager: `src/engine/execution.py` -/

/-- `OrderStatus` enum.  The source's PARTIAL member is rendered
`partFilled` (its name collides with a Lean keyword). -/
inductive OrderStatus where
  | pending
  | submitted
  | filled
  | partFilled
  | rejected
  | cancelled
  | failed
  deriving DecidableEq

/-- `BasketStatus` enum.  The source's PARTIAL member is rendered
`partFilled` (its name collides with a Lean keyword). -/
inductive BasketStatus where
  | pending
  | executing
  | complete
  | partFilled
  | failed
  | cancelled
  deriving DecidableEq

/-- `OrderResult` dataclass (datetimes and the uuid `client_order_id`,
which no claim reads, are not modelled). -/
structure OrderResult where
  ticker : String
  side : Side
  expected_price : ℤ
  expected_size : ℕ
  order_id : Option String := none
  status : OrderStatus := OrderStatus.pending
  fill_price : Option ℤ := none
  fill_size : ℕ := 0
  slippage : ℚ := 0
  error_message : Option String := none
  deriving DecidableEq

/-- `BasketResult` dataclass (datetimes and the uuid `basket_id` are not
modelled). -/
structure BasketResult where
  signal_group_name : String
  event_ticker : String
  expected_profit : ℚ
  order_results : List OrderResult := []
  status : BasketStatus := BasketStatus.pending
  deriving DecidableEq

/-- `BasketResult.orders_filled`. -/
def BasketResult.orders_filled (b : BasketResult) : ℕ :=
  (b.order_results.filter (fun o => o.status = OrderStatus.filled)).length

/-- `BasketResult.orders_total`. -/
def BasketResult.orders_total (b : BasketResult) : ℕ :=
  b.order_results.length

/-- `BasketResult.fill_rate`: filled over total, `0.0` for an empty
basket. -/
def BasketResult.fill_rate (b : BasketResult) : ℚ :=
  if b.orders_total = 0 then 0
  else (b.orders_filled : ℚ) / (b.orders_total : ℚ)

/-- The constructor parameters of `ExecutionManager`, together with the
`_kill_switch` flag as read at basket entry (the per-order timeout, a
wall-clock budget, is not modelled; its expiry shows up as the `timeout`
leg outcome). -/
structure ExecConfig where
  paper_trade : Bool := true
  max_position_per_market : ℕ := 100
  max_basket_cost : ℚ := 100
  kill_switch : Bool := false
  deriving DecidableEq

/-- `ExecutionManager.validate_signal_group`: fail closed on the kill
switch, an empty signal list, the first leg over the per-market position
cap, or total buy-side cost over the basket cap. -/
def validate_signal_group (cfg : ExecConfig)
    (signal_group : SignalGroup) : Bool × Option String :=
  if cfg.kill_switch then (false, some "Kill switch is active")
  else if signal_group.signals = [] then (false, some "Signal group has no signals")
  else
    match signal_group.signals.find? (fun s => s.size > cfg.max_position_per_market) with
    | some s => (false, some ("Signal " ++ s.ticker ++ " exceeds max position"))
    | none =>
        let total_cost := ((signal_group.signals.filter (fun s => s.side = Side.buy)).map
          (fun s => (s.price : ℚ) * (s.size : ℚ) / 100)).sum
        if total_cost > cfg.max_basket_cost then
          (false, some "Basket cost exceeds max")
        else (true, none)

/-- What the world does to one live order: it fills (with the polled
average price and filled count, `None` falling back to the expected
values), it never reaches `filled` within the timeout, or an exception is
raised and caught. -/
inductive LiveOutcome where
  | fills (avg_price : Option ℤ) (filled_count : Option ℕ)
  | timeout
  | raises (msg : String)
  deriving DecidableEq

/-- `ExecutionManager._execute_single_order`: `kill_at_leg` is the
`_kill_switch` value read when the leg task runs (it may have been
activated after basket entry); a set switch short-circuits the leg to
Cancelled.  Paper mode fills at the expected price with zero slippage;
live mode submits and then either fills (slippage = fill - expected) or
fails on timeout; a raised exception is caught into a Failed result. -/
def execute_single_order (cfg : ExecConfig) (kill_at_leg : Bool)
    (outcome : LiveOutcome) (signal : Signal) : OrderResult :=
  let result : OrderResult :=
    { ticker := signal.ticker, side := signal.side,
      expected_price := signal.price, expected_size := signal.size }
  if kill_at_leg then
    { result with status := OrderStatus.cancelled,
                  error_message := some "Kill switch active" }
  else if cfg.paper_trade then
    { result with order_id := some "PAPER",
                  status := OrderStatus.filled,
                  fill_price := some signal.price,
                  fill_size := signal.size,
                  slippage := 0 }
  else
    match outcome with
    | LiveOutcome.fills avg_price filled_count =>
        let fp := avg_price.getD signal.price
        { result with status := OrderStatus.filled,
                      fill_price := some fp,
                      fill_size := filled_count.getD signal.size,
                      slippage := ((fp - signal.price : ℤ) : ℚ) }
    | LiveOutcome.timeout =>
        { result with status := OrderStatus.failed,
                      error_message := some "Order did not fill within timeout" }
    | LiveOutcome.raises msg =>
        { result with status := OrderStatus.failed,
                      error_message := some msg }

/-- `ExecutionManager.execute_basket`, parameterised by the per-leg
outcome function `legExec` (the fan-out of `_execute_single_order` tasks;
`asyncio.gather` returns one result per signal in order, an escaped
exception already converted to a Failed `OrderResult` by the
result-processing loop).  Validation failure returns a Failed basket with
no order results; otherwise the basket is Complete when every leg filled,
Partial when some but not all did, Failed when none did. -/
def execute_basket (cfg : ExecConfig) (legExec : Signal → OrderResult)
    (signal_group : SignalGroup) : BasketResult :=
  let result : BasketResult :=
    { signal_group_name := signal_group.group_name,
      event_ticker := signal_group.event_ticker,
      expected_profit := signal_group.expected_profit }
  if ¬(validate_signal_group cfg signal_group).1 then
    { result with status := BasketStatus.failed }
  else
    let result := { result with order_results := signal_group.signals.map legExec }
    let filled_count := result.orders_filled
    let total_count := result.orders_total
    { result with
      status := if filled_count = total_count then BasketStatus.complete
                else if filled_count > 0 then BasketStatus.partFilled
                else BasketStatus.failed }

/-! ### Derived predicates and helper definitions for the verification -/

/-- Two analyzer loop states agreeing on everything `_analyze_event`'s
sums and valid-market list read (they may differ in accumulated volume). -/
def SameCore (st st' : AnalyzeState) : Prop :=
  st.sum_yes_asks = st'.sum_yes_asks ∧ st.sum_yes_bids = st'.sum_yes_bids ∧
    st.valid_markets = st'.valid_markets

/-- The property `_analyze_event` guarantees of every market it keeps: it
has pricing with a positive YES ask and, under `require_two_sided`, a
positive YES bid. -/
def ValidMarket (cfg : StrategyConfig) (m : MarketWithOrderbook) : Prop :=
  ∃ p ask, m.pricing = some p ∧ p.best_yes_ask = some ask ∧ 0 < ask ∧
    (cfg.require_two_sided = true → 0 < p.best_yes_bid)

/-- The Buy leg `generate_signal_groups` builds for a market kept by the
analyzer (its YES ask is present and positive, so the `getD` default never
fires). -/
def buySignalOf (cfg : StrategyConfig) (m : MarketWithOrderbook) : Signal :=
  { ticker := m.market.ticker, side := Side.buy,
    price := pyInt ((m.pricing.bind MarketPricing.best_yes_ask).getD 0),
    size := cfg.default_size, strategy_name := "StructuralArb" }

/-- The Sell leg `generate_signal_groups` builds for a market kept by the
analyzer under `require_two_sided` (its YES bid is positive, so the `getD`
default never fires). -/
def sellSignalOf (cfg : StrategyConfig) (m : MarketWithOrderbook) : Signal :=
  { ticker := m.market.ticker, side := Side.sell,
    price := pyInt ((m.pricing.map MarketPricing.best_yes_bid).getD 0),
    size := cfg.default_size, strategy_name := "StructuralArb" }

/-! ### Concrete fixtures used by witnesses and counterexamples -/

/-- Market metadata used by concrete scenarios. -/
def fixtureInfo (t : String) (v : ℤ) : MarketInfo :=
  { ticker := t, series_ticker := "S", title := t, status := "open",
    volume_24h := v, event_ticker := some "EVT" }

/-- First market of the two-outcome fixture event: best YES bid 48¢, best
NO bid 51¢, so implied YES ask 49¢. -/
def fixtureM1 : MarketWithOrderbook :=
  { market := fixtureInfo "M1" 20000,
    orderbook := some ([(48, 100)], [(51, 200)]),
    pricing := extract_best_prices [(48, 100)] [(51, 200)] }

/-- Second market of the fixture event: best YES bid 49¢, best NO bid
50¢, so implied YES ask 50¢ — the event's asks sum to 99¢. -/
def fixtureM2 : MarketWithOrderbook :=
  { market := fixtureInfo "M2" 20000,
    orderbook := some ([(49, 100)], [(50, 200)]),
    pricing := extract_best_prices [(49, 100)] [(50, 200)] }

/-- A 3-leg BUY signal group used by the execution scenarios. -/
def fixtureSignal (t : String) : Signal :=
  { ticker := t, side := Side.buy, price := 45, size := 10,
    strategy_name := "StructuralArb" }

/-- The fixture basket: three Buy legs at 45¢, size 10. -/
def fixtureGroup : SignalGroup :=
  { signals := [fixtureSignal "A", fixtureSignal "B", fixtureSignal "C"],
    group_name := "BUY_ALL_EVT", event_ticker := "EVT",
    expected_profit := 1, strategy_name := "StructuralArb" }

/-- Live-mode execution configuration for the fixtures. -/
def fixtureLiveCfg : ExecConfig := { paper_trade := false }

/-- Leg outcomes for the mixed-fill scenario: leg "B" times out, the
others fill at the expected price. -/
def fixtureLegExec : Signal → OrderResult := fun s =>
  execute_single_order fixtureLiveCfg false
    (if s.ticker = "B" then LiveOutcome.timeout else LiveOutcome.fills none none) s

/-- Leg execution with the kill switch active at leg time. -/
def fixtureKilledLegExec : Signal → OrderResult := fun s =>
  execute_single_order { kill_switch := true } true LiveOutcome.timeout s

/-- First market of the deeper-discount fixture event: implied YES ask
47¢ (NO bid 53¢). -/
def fixtureN1 : MarketWithOrderbook :=
  { market := fixtureInfo "N1" 20000,
    orderbook := some ([(46, 100)], [(53, 200)]),
    pricing := extract_best_prices [(46, 100)] [(53, 200)] }

/-- Second market of the deeper-discount fixture event: implied YES ask
50¢ — this event's asks sum to 97¢, below the 98¢ buy threshold. -/
def fixtureN2 : MarketWithOrderbook :=
  { market := fixtureInfo "N2" 20000,
    orderbook := some ([(49, 100)], [(50, 200)]),
    pricing := extract_best_prices [(49, 100)] [(50, 200)] }

/-- A market whose orderbook fetch failed: the scanner still includes it,
with `pricing = None` (`_fetch_complete_event`'s exception path). -/
def fixtureUnpriced1 : MarketWithOrderbook :=
  { market := fixtureInfo "U1" 500 }

/-- A second fetch-failed market, so the event passes the two-market
minimum yet has no usable pricing at all. -/
def fixtureUnpriced2 : MarketWithOrderbook :=
  { market := fixtureInfo "U2" 500 }

/-- A concrete per-ticker classification map: "A" is authoritatively
mutually exclusive, anything else only keyword-qualified at 0.5. -/
def fixtureClassify : String → EventClassification := fun t =>
  if t = "A" then
    { event_ticker := t, event_type := EventType.mutually_exclusive,
      confidence := 1, source := "api_metadata" }
  else
    { event_ticker := t, event_type := EventType.mutually_exclusive,
      confidence := 1/2, source := "keyword_qualify:nominee" }

/-! ### Verification lemmas and claim theorems -/

/-- A market satisfying `ValidMarket` is accumulated by one `_analyze_event` loop iteration: its ask joins the ask sum, its bid the bid sum, and it is appended to the valid list. -/
theorem analyzeStep_keep (cfg : StrategyConfig) (st : AnalyzeState)
    (m : MarketWithOrderbook) (h : ValidMarket cfg m) :
    ∃ p ask, m.pricing = some p ∧ p.best_yes_ask = some ask ∧ 0 < ask ∧
      (analyzeStep cfg st m).sum_yes_asks = st.sum_yes_asks + ask ∧
      (analyzeStep cfg st m).sum_yes_bids
        = st.sum_yes_bids + (if p.best_yes_bid = 0 then 0 else p.best_yes_bid) ∧
      (analyzeStep cfg st m).valid_markets = st.valid_markets ++ [m] ∧
      (analyzeStep cfg st m).aggregate_volume
        = st.aggregate_volume + m.market.volume_24h := by
  obtain ⟨p, ask, hp, hask, hpos, htwo⟩ := h
  refine ⟨p, ask, hp, hask, hpos, ?_⟩
  have h1 : ¬ask ≤ 0 := not_le.mpr hpos
  have h2 : ¬(cfg.require_two_sided = true ∧ p.best_yes_bid ≤ 0) := by
    rintro ⟨ht, hb⟩
    exact absurd hb (not_le.mpr (htwo ht))
  simp [analyzeStep, hp, hask, h1, h2]

/-- A market failing `ValidMarket` is skipped by one `_analyze_event` loop iteration: only the volume aggregate changes. -/
theorem analyzeStep_skip (cfg : StrategyConfig) (st : AnalyzeState)
    (m : MarketWithOrderbook) (h : ¬ValidMarket cfg m) :
    (analyzeStep cfg st m).sum_yes_asks = st.sum_yes_asks ∧
    (analyzeStep cfg st m).sum_yes_bids = st.sum_yes_bids ∧
    (analyzeStep cfg st m).valid_markets = st.valid_markets ∧
    (analyzeStep cfg st m).aggregate_volume
      = st.aggregate_volume + m.market.volume_24h := by
  rcases hm : m.pricing with _ | p
  · simp [analyzeStep, hm]
  · rcases hask : p.best_yes_ask with _ | ask
    · simp [analyzeStep, hm, hask]
    · by_cases h1 : ask ≤ 0
      · simp [analyzeStep, hm, hask, h1]
      · by_cases h2 : cfg.require_two_sided = true ∧ p.best_yes_bid ≤ 0
        · simp [analyzeStep, hm, hask, h1, h2]
        · exact absurd ⟨p, ask, hm, hask, not_le.mp h1,
            fun ht => not_le.mp (fun hb => h2 ⟨ht, hb⟩)⟩ h

/-- One analyzer step preserves agreement of two states on the sums and the valid-market list. -/
theorem sameCore_step (cfg : StrategyConfig) (st st' : AnalyzeState)
    (m : MarketWithOrderbook) (h : SameCore st st') :
    SameCore (analyzeStep cfg st m) (analyzeStep cfg st' m) := by
  obtain ⟨h1, h2, h3⟩ := h
  by_cases hv : ValidMarket cfg m
  · obtain ⟨p, ask, hp, hask, _, e1, e2, e3, _⟩ := analyzeStep_keep cfg st m hv
    obtain ⟨p', ask', hp', hask', _, f1, f2, f3, _⟩ := analyzeStep_keep cfg st' m hv
    have hpp : p = p' := by rw [hp] at hp'; exact Option.some.inj hp'
    subst hpp
    have haa : ask = ask' := by rw [hask] at hask'; exact Option.some.inj hask'
    subst haa
    exact ⟨by rw [e1, f1, h1], by rw [e2, f2, h2], by rw [e3, f3, h3]⟩
  · obtain ⟨e1, e2, e3, _⟩ := analyzeStep_skip cfg st m hv
    obtain ⟨f1, f2, f3, _⟩ := analyzeStep_skip cfg st' m hv
    exact ⟨by rw [e1, f1, h1], by rw [e2, f2, h2], by rw [e3, f3, h3]⟩

/-- The whole analyzer fold preserves agreement on the sums and the valid-market list. -/
theorem sameCore_foldl (cfg : StrategyConfig) (l : List MarketWithOrderbook)
    (st st' : AnalyzeState) (h : SameCore st st') :
    SameCore (l.foldl (analyzeStep cfg) st) (l.foldl (analyzeStep cfg) st') := by
  induction l generalizing st st' with
  | nil => exact h
  | cons m rest ih => exact ih _ _ (sameCore_step cfg st st' m h)

/-- Every market kept by the analyzer fold satisfies `ValidMarket`. -/
theorem foldl_valid_markets (cfg : StrategyConfig) (l : List MarketWithOrderbook)
    (st : AnalyzeState) (h : ∀ m ∈ st.valid_markets, ValidMarket cfg m) :
    ∀ m ∈ (l.foldl (analyzeStep cfg) st).valid_markets, ValidMarket cfg m := by
  induction l generalizing st with
  | nil => exact h
  | cons x rest ih =>
      refine ih _ ?_
      by_cases hv : ValidMarket cfg x
      · obtain ⟨p, ask, _, _, _, _, _, e3, _⟩ := analyzeStep_keep cfg st x hv
        rw [e3]
        intro m hm
        rcases List.mem_append.mp hm with hm | hm
        · exact h m hm
        · rw [List.mem_singleton.mp hm]; exact hv
      · obtain ⟨_, _, e3, _⟩ := analyzeStep_skip cfg st x hv
        rw [e3]; exact h

/-- If the analyzer fold keeps no market, both sums are zero. -/
theorem foldl_empty_valid_sums (cfg : StrategyConfig) (l : List MarketWithOrderbook)
    (st : AnalyzeState)
    (h : st.valid_markets = [] → st.sum_yes_asks = 0 ∧ st.sum_yes_bids = 0) :
    (l.foldl (analyzeStep cfg) st).valid_markets = [] →
      (l.foldl (analyzeStep cfg) st).sum_yes_asks = 0 ∧
      (l.foldl (analyzeStep cfg) st).sum_yes_bids = 0 := by
  induction l generalizing st with
  | nil => exact h
  | cons x rest ih =>
      refine ih _ ?_
      by_cases hv : ValidMarket cfg x
      · obtain ⟨p, ask, _, _, _, _, _, e3, _⟩ := analyzeStep_keep cfg st x hv
        rw [e3]
        intro hemp
        exact absurd hemp (List.append_ne_nil_of_right_ne_nil _ (by simp))
      · obtain ⟨e1, e2, e3, _⟩ := analyzeStep_skip cfg st x hv
        rw [e1, e2, e3]; exact h

/-- A one-sided book gives a partial pricing record: asks and spreads null, the missing bid substituted with zero. -/
theorem extract_one_sided (yes_bids no_bids : List Level)
    (h : (yes_bids = [] ∧ no_bids ≠ []) ∨ (yes_bids ≠ [] ∧ no_bids = [])) :
    ∃ p, extract_best_prices yes_bids no_bids = some p ∧
      p.best_yes_ask = none ∧ p.best_no_ask = none ∧
      p.yes_spread = none ∧ p.no_spread = none ∧
      (yes_bids = [] → p.best_yes_bid = 0) ∧
      (no_bids = [] → p.best_no_bid = 0) := by
  rw [extract_best_prices]
  rcases h with ⟨hy, hn⟩ | ⟨hy, hn⟩
  · rw [if_neg (by simp [hy, hn])]
    subst hy
    rw [List.getLast?_eq_getLast_of_ne_nil hn]
    simp [orZero, hn]
  · rw [if_neg (by simp [hy, hn])]
    subst hn
    rw [List.getLast?_eq_getLast_of_ne_nil hy]
    simp only [Option.map_some, List.getLast?_nil, Option.map_none]
    refine ⟨_, rfl, ?_⟩
    simp [orZero, hy]

/-- The keyword fallback produces one of three shapes: disqualify at 0.6, qualify at 0.5, or no match at 0. -/
theorem classify_by_keywords_shape (et : String) (title category : Option String) :
    (∃ k, (classify_by_keywords et title category).source = "keyword_disqualify:" ++ k ∧
       (classify_by_keywords et title category).confidence = 3/5) ∨
    (∃ k, (classify_by_keywords et title category).source = "keyword_qualify:" ++ k ∧
       (classify_by_keywords et title category).confidence = 1/2) ∨
    ((classify_by_keywords et title category).source = "no_match" ∧
       (classify_by_keywords et title category).confidence = 0) := by
  rcases hd : DISQUALIFYING_KEYWORDS.find? (fun k =>
      strHas (lowerList (et ++ " " ++ title.getD "" ++ " " ++ category.getD ""))
        (lowerList k)) with _ | k
  · rcases hq : QUALIFYING_KEYWORDS.find? (fun k =>
        strHas (lowerList (et ++ " " ++ title.getD "" ++ " " ++ category.getD ""))
          (lowerList k)) with _ | k
    · refine Or.inr (Or.inr ⟨?_, ?_⟩) <;> simp [classify_by_keywords, hd, hq]
    · refine Or.inr (Or.inl ⟨k, ?_, ?_⟩) <;> simp [classify_by_keywords, hd, hq]
  · refine Or.inl ⟨k, ?_, ?_⟩ <;> simp [classify_by_keywords, hd]

/-- A metadata classification is either the authoritative flag at confidence 1.0 or the collateral-type inference at 0.9. -/
theorem classify_by_metadata_shape (m : EventMetadata) (c : EventClassification)
    (hm : classify_by_metadata m = some c) :
    (c.source = "api_metadata" ∧ c.confidence = 1) ∨
    (c.source = "collateral_type" ∧ c.confidence = 9/10) := by
  unfold classify_by_metadata at hm
  rcases hme : m.mutually_exclusive with _ | flag
  · simp only [hme] at hm
    by_cases hmec : strHas (upperList (m.collateral_return_type.getD "")) ['M', 'E', 'C'] = true
    · simp [hmec] at hm
      subst hm
      exact Or.inr ⟨rfl, rfl⟩
    · simp [hmec] at hm
  · simp only [hme] at hm
    cases Option.some.inj hm
    exact Or.inl ⟨rfl, rfl⟩

/-- Every classification produced by `classify` has one of the five source/confidence shapes. -/
theorem classify_shape (md : Option EventMetadata) (et : String) :
    ((classify md et).source = "api_metadata" ∧ (classify md et).confidence = 1) ∨
    ((classify md et).source = "collateral_type" ∧ (classify md et).confidence = 9/10) ∨
    (∃ k, (classify md et).source = "keyword_disqualify:" ++ k ∧
       (classify md et).confidence = 3/5) ∨
    (∃ k, (classify md et).source = "keyword_qualify:" ++ k ∧
       (classify md et).confidence = 1/2) ∨
    ((classify md et).source = "no_match" ∧ (classify md et).confidence = 0) := by
  cases md with
  | none =>
      simp only [classify]
      rcases classify_by_keywords_shape et none none with h | h | h
      · exact Or.inr (Or.inr (Or.inl h))
      · exact Or.inr (Or.inr (Or.inr (Or.inl h)))
      · exact Or.inr (Or.inr (Or.inr (Or.inr h)))
  | some m =>
      simp only [classify]
      rcases hm : classify_by_metadata m with _ | c
      · simp only [hm]
        rcases classify_by_keywords_shape et m.title m.category with h | h | h
        · exact Or.inr (Or.inr (Or.inl h))
        · exact Or.inr (Or.inr (Or.inr (Or.inl h)))
        · exact Or.inr (Or.inr (Or.inr (Or.inr h)))
      · simp only [hm]
        rcases classify_by_metadata_shape m c hm with ⟨h1, h2⟩ | ⟨h1, h2⟩
        · exact Or.inl ⟨h1, h2⟩
        · exact Or.inr (Or.inl ⟨h1, h2⟩)

/-- A signal group that passes validation has at least one signal. -/
theorem validate_true_signals_ne_nil (cfg : ExecConfig) (sg : SignalGroup)
    (h : (validate_signal_group cfg sg).1 = true) : sg.signals ≠ [] := by
  intro hnil
  rcases hk : cfg.kill_switch with _ | _
  · simp [validate_signal_group, hk, hnil] at h
  · simp [validate_signal_group, hk] at h

/-- The Buy-leg guard accepts every market kept by the analyzer. -/
theorem buySignalOpt_of_valid (cfg : StrategyConfig) (m : MarketWithOrderbook)
    (h : ValidMarket cfg m) :
    buySignalOpt cfg m = some (buySignalOf cfg m) := by
  obtain ⟨p, ask, hp, hask, hpos, -⟩ := h
  simp [buySignalOpt, buySignalOf, hp, hask, ne_of_gt hpos]

/-- Under two-sided filtering the Sell-leg guard accepts every market kept by the analyzer. -/
theorem sellSignalOpt_of_valid (cfg : StrategyConfig) (m : MarketWithOrderbook)
    (htwo : cfg.require_two_sided = true) (h : ValidMarket cfg m) :
    sellSignalOpt cfg m = some (sellSignalOf cfg m) := by
  obtain ⟨p, ask, hp, hask, hpos, hbid⟩ := h
  simp [sellSignalOpt, sellSignalOf, hp, ne_of_gt (hbid htwo)]

/-- Over analyzer-kept markets the Buy-leg filterMap is a total map. -/
theorem filterMap_buy_eq_map (cfg : StrategyConfig) (l : List MarketWithOrderbook)
    (h : ∀ m ∈ l, ValidMarket cfg m) :
    l.filterMap (buySignalOpt cfg) = l.map (buySignalOf cfg) := by
  induction l with
  | nil => rfl
  | cons x rest ih =>
      rw [List.map_cons, ← ih (fun m hm => h m (List.mem_cons_of_mem _ hm))]
      simp [List.filterMap_cons, buySignalOpt_of_valid cfg x (h x (List.mem_cons_self x rest))]

/-- Over analyzer-kept markets the Sell-leg filterMap is a total map under two-sided filtering. -/
theorem filterMap_sell_eq_map (cfg : StrategyConfig) (l : List MarketWithOrderbook)
    (htwo : cfg.require_two_sided = true) (h : ∀ m ∈ l, ValidMarket cfg m) :
    l.filterMap (sellSignalOpt cfg) = l.map (sellSignalOf cfg) := by
  induction l with
  | nil => rfl
  | cons x rest ih =>
      rw [List.map_cons, ← ih (fun m hm => h m (List.mem_cons_of_mem _ hm))]
      simp [List.filterMap_cons, sellSignalOpt_of_valid cfg x htwo (h x (List.mem_cons_self x rest))]

/-- Every market included in an `EventAnalysis` satisfies `ValidMarket`. -/
theorem analyze_event_markets_valid (cfg : StrategyConfig) (et : String)
    (mkts : List MarketWithOrderbook) :
    ∀ m ∈ (analyze_event cfg et mkts).markets, ValidMarket cfg m := by
  have hrfl : (analyze_event cfg et mkts).markets
      = (mkts.foldl (analyzeStep cfg) ⟨0, 0, [], 0⟩).valid_markets := rfl
  rw [hrfl]
  exact foldl_valid_markets cfg mkts ⟨0, 0, [], 0⟩ (by intro x hx; cases hx)

/-- An `EventAnalysis` with a positive ask or bid sum includes at least one market. -/
theorem analyze_event_markets_ne_nil (cfg : StrategyConfig) (et : String)
    (mkts : List MarketWithOrderbook)
    (h : 0 < (analyze_event cfg et mkts).sum_yes_asks ∨
      0 < (analyze_event cfg et mkts).sum_yes_bids) :
    (analyze_event cfg et mkts).markets ≠ [] := by
  intro hnil
  have hrfl : (analyze_event cfg et mkts).markets
      = (mkts.foldl (analyzeStep cfg) ⟨0, 0, [], 0⟩).valid_markets := rfl
  have hA : (analyze_event cfg et mkts).sum_yes_asks
      = (mkts.foldl (analyzeStep cfg) ⟨0, 0, [], 0⟩).sum_yes_asks := rfl
  have hB : (analyze_event cfg et mkts).sum_yes_bids
      = (mkts.foldl (analyzeStep cfg) ⟨0, 0, [], 0⟩).sum_yes_bids := rfl
  rw [hrfl] at hnil
  obtain ⟨z1, z2⟩ := foldl_empty_valid_sums cfg mkts ⟨0, 0, [], 0⟩ (fun _ => ⟨rfl, rfl⟩) hnil
  rcases h with h | h
  · rw [hA, z1] at h; exact absurd h (by norm_num)
  · rw [hB, z2] at h; exact absurd h (by norm_num)

/-- C1 counterexample: for a book with only YES bids, `extract_best_prices` substitutes `0.0` for the missing NO best bid instead of leaving it null (only the asks and spreads are left missing). -/
theorem c1_counterexample :
    ∃ p, extract_best_prices [(45, 100)] [] = some p ∧ p.best_no_bid = 0 ∧
      p.best_no_ask = none :=
  ⟨{ best_yes_bid := 45, best_no_bid := 0, yes_bid_depth := 100, no_bid_depth := 0 },
    by simp [extract_best_prices, orZero], rfl, rfl⟩

/-- C1 (amended): a market with bids on only one side yields a pricing record whose ask and spread fields are all null and the implied-ask rule is not applied, but the missing best bid itself is substituted with `0.0` — the bid fields of `MarketPricing` are non-optional. -/
theorem c1_unbid_side (yes_bids no_bids : List Level)
    (h : (yes_bids = [] ∧ no_bids ≠ []) ∨ (yes_bids ≠ [] ∧ no_bids = [])) :
    ∃ p, extract_best_prices yes_bids no_bids = some p ∧
      p.best_yes_ask = none ∧ p.best_no_ask = none ∧
      p.yes_spread = none ∧ p.no_spread = none ∧
      (yes_bids = [] → p.best_yes_bid = 0) ∧
      (no_bids = [] → p.best_no_bid = 0) :=
  extract_one_sided yes_bids no_bids h

/-- C1 witness: the amended statement at the concrete one-sided book `yes=[[45,100]]`, `no=[]`. -/
theorem c1_witness :
    ∃ p, extract_best_prices [(45, 100)] [] = some p ∧
      p.best_yes_ask = none ∧ p.best_no_ask = none ∧
      p.yes_spread = none ∧ p.no_spread = none ∧
      (([((45 : ℚ), (100 : ℤ))] : List Level) = [] → p.best_yes_bid = 0) ∧
      (([] : List Level) = [] → p.best_no_bid = 0) :=
  c1_unbid_side [(45, 100)] [] (Or.inr ⟨by simp, rfl⟩)

/-- C2: `filter_mutually_exclusive` returns exactly those tickers whose classification has label MutuallyExclusive and confidence at least the threshold (default 0.8); anything below the threshold is rejected even when labelled MutuallyExclusive. -/
theorem c2_filter (classifyF : String → EventClassification)
    (event_tickers : List String) (min_confidence : ℚ) (t : String) :
    t ∈ filter_mutually_exclusive classifyF event_tickers min_confidence ↔
      t ∈ event_tickers ∧
        (classifyF t).event_type = EventType.mutually_exclusive ∧
        (classifyF t).confidence ≥ min_confidence := by
  simp [filter_mutually_exclusive, List.mem_filter, and_assoc]

/-- C2 witness: on tickers classified at confidence 1.0 (kept) and 0.5 (rejected despite the MutuallyExclusive label), the filter keeps exactly the first. -/
theorem c2_witness :
    ("A" ∈ filter_mutually_exclusive fixtureClassify ["A", "B"] (4/5) ↔
      "A" ∈ ["A", "B"] ∧
        (fixtureClassify "A").event_type = EventType.mutually_exclusive ∧
        (fixtureClassify "A").confidence ≥ 4/5) ∧
    filter_mutually_exclusive fixtureClassify ["A", "B"] (4/5) = ["A"] := by
  refine ⟨c2_filter fixtureClassify ["A", "B"] (4/5) "A", ?_⟩
  have hA : fixtureClassify "A" = { event_ticker := "A", event_type := EventType.mutually_exclusive, confidence := 1, source := "api_metadata" } := by simp [fixtureClassify]
  have hB : fixtureClassify "B" = { event_ticker := "B", event_type := EventType.mutually_exclusive, confidence := 1/2, source := "keyword_qualify:nominee" } := by simp [fixtureClassify]
  simp [filter_mutually_exclusive, List.filter_cons, hA, hB]
  norm_num

/-- C3 counterexample: for an event with no priced markets `_analyze_event` yields `sum_of_asks = 0` and the `-100` profit sentinel, so `has_buy_arb` is false although `100 - sum_of_asks > 0` — the claimed equivalence fails when the sum is 0. -/
theorem c3_counterexample :
    ¬(((analyze_event defaultStrategyConfig "EVT" [fixtureUnpriced1, fixtureUnpriced2]).has_buy_arb = true ↔
        100 - (analyze_event defaultStrategyConfig "EVT" [fixtureUnpriced1, fixtureUnpriced2]).sum_yes_asks > 0) ∧
      ((analyze_event defaultStrategyConfig "EVT" [fixtureUnpriced1, fixtureUnpriced2]).has_sell_arb = true ↔
        (analyze_event defaultStrategyConfig "EVT" [fixtureUnpriced1, fixtureUnpriced2]).sum_yes_bids - 100 > 0)) := by
  rintro ⟨hbuy, -⟩
  have h1 : (analyze_event defaultStrategyConfig "EVT" [fixtureUnpriced1, fixtureUnpriced2]).has_buy_arb = false := by
    simp [analyze_event, analyzeStep, EventAnalysis.has_buy_arb, defaultStrategyConfig,
      fixtureUnpriced1, fixtureUnpriced2, fixtureInfo]
  have h2 : (analyze_event defaultStrategyConfig "EVT" [fixtureUnpriced1, fixtureUnpriced2]).sum_yes_asks = 0 := by
    simp [analyze_event, analyzeStep, defaultStrategyConfig,
      fixtureUnpriced1, fixtureUnpriced2, fixtureInfo]
  rw [h1, h2] at hbuy
  norm_num at hbuy

/-- C3 (amended): `has_buy_arb` holds iff `sum_of_asks > 0` and `100 - sum_of_asks > 0` (the sentinel makes it false at sum 0), while `has_sell_arb` iff `sum_of_bids - 100 > 0` holds unconditionally as claimed. -/
theorem c3_amended (cfg : StrategyConfig) (et : String)
    (markets : List MarketWithOrderbook) :
    ((analyze_event cfg et markets).has_buy_arb = true ↔
      0 < (analyze_event cfg et markets).sum_yes_asks ∧
        100 - (analyze_event cfg et markets).sum_yes_asks > 0) ∧
    ((analyze_event cfg et markets).has_sell_arb = true ↔
      (analyze_event cfg et markets).sum_yes_bids - 100 > 0) := by
  simp only [analyze_event, EventAnalysis.has_buy_arb, EventAnalysis.has_sell_arb,
    decide_eq_true_eq]
  constructor
  · split_ifs with h
    · constructor
      · intro hlt; exact ⟨h, hlt⟩
      · intro ⟨_, hlt⟩; exact hlt
    · constructor
      · intro hc; norm_num at hc
      · intro ⟨hpos, _⟩; exact absurd hpos h
  · split_ifs with h
    · exact Iff.rfl
    · constructor
      · intro hc; norm_num at hc
      · intro hgt; push_neg at h; linarith

/-- C3 witness: the amended equivalences at a concrete two-market event. -/
theorem c3_witness :
    ((analyze_event defaultStrategyConfig "EVT" [fixtureM1, fixtureM2]).has_buy_arb = true ↔
      0 < (analyze_event defaultStrategyConfig "EVT" [fixtureM1, fixtureM2]).sum_yes_asks ∧
        100 - (analyze_event defaultStrategyConfig "EVT" [fixtureM1, fixtureM2]).sum_yes_asks > 0) ∧
    ((analyze_event defaultStrategyConfig "EVT" [fixtureM1, fixtureM2]).has_sell_arb = true ↔
      (analyze_event defaultStrategyConfig "EVT" [fixtureM1, fixtureM2]).sum_yes_bids - 100 > 0) :=
  c3_amended defaultStrategyConfig "EVT" [fixtureM1, fixtureM2]

/-- C4 counterexample: a high-quality analysis with `has_buy_arb` (asks summing to 99 cents) emits no signal group at all, because group generation triggers on the 98-cent buy threshold, not on `has_buy_arb`. -/
theorem c4_counterexample :
    (analyze_event defaultStrategyConfig "EVT" [fixtureM1, fixtureM2]).is_high_quality = true ∧
    (analyze_event defaultStrategyConfig "EVT" [fixtureM1, fixtureM2]).has_buy_arb = true ∧
    signal_groups_for_analysis defaultStrategyConfig
      (analyze_event defaultStrategyConfig "EVT" [fixtureM1, fixtureM2]) = [] := by
  refine ⟨?_, ?_, ?_⟩
  · simp [analyze_event, analyzeStep, fixtureM1, fixtureM2, fixtureInfo, defaultStrategyConfig,
      EventAnalysis.is_high_quality, EventAnalysis.has_opportunity, EventAnalysis.has_buy_arb,
      EventAnalysis.has_sell_arb, EventAnalysis.coverage,
      extract_best_prices, MarketPricing.calculate_implied_asks, MarketPricing.calculate_spreads]
    norm_num
  · simp [analyze_event, analyzeStep, fixtureM1, fixtureM2, fixtureInfo, defaultStrategyConfig,
      EventAnalysis.has_buy_arb,
      extract_best_prices, MarketPricing.calculate_implied_asks, MarketPricing.calculate_spreads]
    norm_num
  · simp [signal_groups_for_analysis, analyze_event, analyzeStep, fixtureM1, fixtureM2,
      fixtureInfo, defaultStrategyConfig,
      extract_best_prices, MarketPricing.calculate_implied_asks, MarketPricing.calculate_spreads]
    norm_num

/-- C4 (amended): when `0 < sum_of_asks < buy_threshold` (default 98 cents) the generator emits a BUY_ALL_<event> group with one Buy signal per included market priced at the int of its best YES ask; when `sell_threshold < sum_of_bids` (threshold non-negative, default 102) under two-sided filtering, a SELL_ALL_<event> group with one Sell signal per market at its best YES bid. -/
theorem c4_amended_groups (cfg : StrategyConfig) (et : String)
    (mkts : List MarketWithOrderbook) :
    ((0 < (analyze_event cfg et mkts).sum_yes_asks ∧
        (analyze_event cfg et mkts).sum_yes_asks < cfg.buy_threshold) →
      ∃ g ∈ signal_groups_for_analysis cfg (analyze_event cfg et mkts),
        g.group_name = "BUY_ALL_" ++ (analyze_event cfg et mkts).event_ticker ∧
        g.signals = (analyze_event cfg et mkts).markets.map (buySignalOf cfg) ∧
        g.signals ≠ [] ∧
        ∀ m ∈ (analyze_event cfg et mkts).markets, ∃ p ask, m.pricing = some p ∧
          p.best_yes_ask = some ask ∧ 0 < ask ∧
          buySignalOf cfg m = { ticker := m.market.ticker, side := Side.buy, price := pyInt ask, size := cfg.default_size, strategy_name := "StructuralArb" }) ∧
    ((cfg.require_two_sided = true ∧ 0 ≤ cfg.sell_threshold ∧
        cfg.sell_threshold < (analyze_event cfg et mkts).sum_yes_bids) →
      ∃ g ∈ signal_groups_for_analysis cfg (analyze_event cfg et mkts),
        g.group_name = "SELL_ALL_" ++ (analyze_event cfg et mkts).event_ticker ∧
        g.signals = (analyze_event cfg et mkts).markets.map (sellSignalOf cfg) ∧
        g.signals ≠ [] ∧
        ∀ m ∈ (analyze_event cfg et mkts).markets, ∃ p, m.pricing = some p ∧
          0 < p.best_yes_bid ∧
          sellSignalOf cfg m = { ticker := m.market.ticker, side := Side.sell, price := pyInt p.best_yes_bid, size := cfg.default_size, strategy_name := "StructuralArb" }) := by
  have hvalid := analyze_event_markets_valid cfg et mkts
  constructor
  · rintro ⟨hpos, hlt⟩
    have hne : (analyze_event cfg et mkts).markets ≠ [] :=
      analyze_event_markets_ne_nil cfg et mkts (Or.inl hpos)
    have hbs : buySignals cfg (analyze_event cfg et mkts)
        = (analyze_event cfg et mkts).markets.map (buySignalOf cfg) :=
      filterMap_buy_eq_map cfg _ hvalid
    have hbne : buySignals cfg (analyze_event cfg et mkts) ≠ [] := by
      rw [hbs]
      simpa using hne
    refine ⟨{ signals := buySignals cfg (analyze_event cfg et mkts), group_name := "BUY_ALL_" ++ (analyze_event cfg et mkts).event_ticker, event_ticker := (analyze_event cfg et mkts).event_ticker, expected_profit := (100 - (analyze_event cfg et mkts).sum_yes_asks) * (cfg.default_size : ℚ) / 100, strategy_name := "StructuralArb" }, ?_, rfl, hbs, hbne, ?_⟩
    · unfold signal_groups_for_analysis
      rw [if_pos ⟨hlt, hpos⟩]
      simp only [hbne, if_false]
      exact List.mem_append_left _ (List.mem_singleton_self _)
    · intro m hm
      obtain ⟨p, ask, hp, hask, hpos', -⟩ := hvalid m hm
      exact ⟨p, ask, hp, hask, hpos', by simp [buySignalOf, hp, hask]⟩
  · rintro ⟨htwo, hth0, hgt⟩
    have hbpos : 0 < (analyze_event cfg et mkts).sum_yes_bids := lt_of_le_of_lt hth0 hgt
    have hne : (analyze_event cfg et mkts).markets ≠ [] :=
      analyze_event_markets_ne_nil cfg et mkts (Or.inr hbpos)
    have hss : sellSignals cfg (analyze_event cfg et mkts)
        = (analyze_event cfg et mkts).markets.map (sellSignalOf cfg) :=
      filterMap_sell_eq_map cfg _ htwo hvalid
    have hsne : sellSignals cfg (analyze_event cfg et mkts) ≠ [] := by
      rw [hss]
      simpa using hne
    refine ⟨{ signals := sellSignals cfg (analyze_event cfg et mkts), group_name := "SELL_ALL_" ++ (analyze_event cfg et mkts).event_ticker, event_ticker := (analyze_event cfg et mkts).event_ticker, expected_profit := ((analyze_event cfg et mkts).sum_yes_bids - 100) * (cfg.default_size : ℚ) / 100, strategy_name := "StructuralArb" }, ?_, rfl, hss, hsne, ?_⟩
    · unfold signal_groups_for_analysis
      rw [if_pos hgt]
      simp only [hsne, if_false]
      exact List.mem_append_right _ (List.mem_singleton_self _)
    · intro m hm
      obtain ⟨p, ask, hp, hask, hpos', hbid⟩ := hvalid m hm
      exact ⟨p, hp, hbid htwo, by simp [sellSignalOf, hp]⟩

/-- C4 witness: the buy half of the amended statement at a concrete event whose asks sum to 97 cents. -/
theorem c4_witness :
    ∃ g ∈ signal_groups_for_analysis defaultStrategyConfig
        (analyze_event defaultStrategyConfig "EVT" [fixtureN1, fixtureN2]),
      g.group_name = "BUY_ALL_" ++
        (analyze_event defaultStrategyConfig "EVT" [fixtureN1, fixtureN2]).event_ticker ∧
      g.signals = (analyze_event defaultStrategyConfig "EVT" [fixtureN1, fixtureN2]).markets.map
        (buySignalOf defaultStrategyConfig) ∧
      g.signals ≠ [] ∧
      ∀ m ∈ (analyze_event defaultStrategyConfig "EVT" [fixtureN1, fixtureN2]).markets,
        ∃ p ask, m.pricing = some p ∧ p.best_yes_ask = some ask ∧ 0 < ask ∧
          buySignalOf defaultStrategyConfig m = { ticker := m.market.ticker, side := Side.buy, price := pyInt ask, size := defaultStrategyConfig.default_size, strategy_name := "StructuralArb" } := by
  have hsum : (analyze_event defaultStrategyConfig "EVT" [fixtureN1, fixtureN2]).sum_yes_asks = 97 := by
    simp [analyze_event, analyzeStep, fixtureN1, fixtureN2, fixtureInfo, defaultStrategyConfig,
      extract_best_prices, MarketPricing.calculate_implied_asks, MarketPricing.calculate_spreads]
    norm_num
  refine (c4_amended_groups defaultStrategyConfig "EVT" [fixtureN1, fixtureN2]).1 ⟨?_, ?_⟩
  · rw [hsum]; norm_num
  · rw [hsum]; norm_num [defaultStrategyConfig]

/-- C5: an active kill switch makes validation fail, and any validation failure — kill switch, empty group, a leg over the per-market position cap, or buy-side cost over the basket cap — returns a Failed `BasketResult` with zero order results, before any leg is submitted. -/
theorem c5_validation_aborts (cfg : ExecConfig) (legExec : Signal → OrderResult)
    (sg : SignalGroup) :
    (cfg.kill_switch = true → (validate_signal_group cfg sg).1 = false) ∧
    ((validate_signal_group cfg sg).1 = false →
      (execute_basket cfg legExec sg).status = BasketStatus.failed ∧
      (execute_basket cfg legExec sg).order_results = []) ∧
    (sg.signals = [] → (validate_signal_group cfg sg).1 = false) ∧
    ((∃ s ∈ sg.signals, s.size > cfg.max_position_per_market) →
      (validate_signal_group cfg sg).1 = false) ∧
    (((sg.signals.filter (fun s => s.side = Side.buy)).map
        (fun s => (s.price : ℚ) * (s.size : ℚ) / 100)).sum > cfg.max_basket_cost →
      (validate_signal_group cfg sg).1 = false) := by
  refine ⟨?_, ?_, ?_, ?_, ?_⟩
  · intro h
    simp [validate_signal_group, h]
  · intro h
    constructor <;> simp [execute_basket, h]
  · intro h
    rcases hk : cfg.kill_switch with _ | _ <;> simp [validate_signal_group, hk, h]
  · rintro ⟨s, hs, hsz⟩
    rcases hk : cfg.kill_switch with _ | _
    · rcases hf : sg.signals.find? (fun s => s.size > cfg.max_position_per_market) with _ | t
      · have hnone := List.find?_eq_none.mp hf s hs
        simp at hnone
        omega
      · have hnil : sg.signals ≠ [] := by
          intro hnil0
          rw [hnil0, List.find?_nil] at hf
          exact Option.noConfusion hf
        simp [validate_signal_group, hk, hnil, hf]
    · simp [validate_signal_group, hk]
  · intro hcost
    rcases hk : cfg.kill_switch with _ | _
    · by_cases hnil : sg.signals = []
      · simp [validate_signal_group, hk, hnil]
      · rcases hf : sg.signals.find? (fun s => s.size > cfg.max_position_per_market) with _ | t
        · simp [validate_signal_group, hk, hnil, hf, hcost]
        · simp [validate_signal_group, hk, hnil, hf]
    · simp [validate_signal_group, hk]

/-- C5 witness: with the kill switch active at entry, the concrete basket fails validation and returns Failed with no order results. -/
theorem c5_witness :
    (({ kill_switch := true } : ExecConfig)).kill_switch = true ∧
    (validate_signal_group { kill_switch := true } fixtureGroup).1 = false ∧
    (execute_basket { kill_switch := true } fixtureKilledLegExec fixtureGroup).status = BasketStatus.failed ∧
    (execute_basket { kill_switch := true } fixtureKilledLegExec fixtureGroup).order_results = [] := by
  have h := c5_validation_aborts { kill_switch := true } fixtureKilledLegExec fixtureGroup
  have h1 := h.1 rfl
  exact ⟨rfl, h1, (h.2.1 h1).1, (h.2.1 h1).2⟩

/-- C6: for every basket that passes validation, Complete iff every leg Filled, Partial iff some but not all legs Filled, Failed iff no leg Filled, and `fill_rate` equals filled legs over total legs. -/
theorem c6_statuses (cfg : ExecConfig) (legExec : Signal → OrderResult)
    (sg : SignalGroup) (h : (validate_signal_group cfg sg).1 = true) :
    ((execute_basket cfg legExec sg).status = BasketStatus.complete ↔
      ∀ o ∈ (execute_basket cfg legExec sg).order_results,
        o.status = OrderStatus.filled) ∧
    ((execute_basket cfg legExec sg).status = BasketStatus.partFilled ↔
      ((∃ o ∈ (execute_basket cfg legExec sg).order_results,
          o.status = OrderStatus.filled) ∧
       (∃ o ∈ (execute_basket cfg legExec sg).order_results,
          o.status ≠ OrderStatus.filled))) ∧
    ((execute_basket cfg legExec sg).status = BasketStatus.failed ↔
      ∀ o ∈ (execute_basket cfg legExec sg).order_results,
        o.status ≠ OrderStatus.filled) ∧
    (execute_basket cfg legExec sg).fill_rate =
      ((execute_basket cfg legExec sg).orders_filled : ℚ) /
        ((execute_basket cfg legExec sg).orders_total : ℚ) := by
  have hne := validate_true_signals_ne_nil cfg sg h
  simp only [execute_basket, h, eq_self_iff_true, not_true, if_false]
  set L := sg.signals.map legExec with hL
  set n := (L.filter (fun o => o.status = OrderStatus.filled)).length with hn
  have hNn : (({ signal_group_name := sg.group_name, event_ticker := sg.event_ticker, expected_profit := sg.expected_profit, order_results := L } : BasketResult)).orders_filled = n := rfl
  have hNt : (({ signal_group_name := sg.group_name, event_ticker := sg.event_ticker, expected_profit := sg.expected_profit, order_results := L } : BasketResult)).orders_total = L.length := rfl
  have hle : n ≤ L.length := List.length_filter_le _ _
  have hNpos : L.length ≠ 0 := by
    simp only [hL, List.length_map]
    exact fun hc => hne (List.length_eq_zero.mp hc)
  have key_all : n = L.length ↔ ∀ o ∈ L, o.status = OrderStatus.filled := by
    constructor
    · intro h1
      have heq := List.Sublist.eq_of_length (List.filter_sublist L) h1
      intro o ho
      have := List.filter_eq_self.mp heq o ho
      simpa using this
    · intro hall
      rw [hn]
      rw [List.filter_eq_self.mpr (fun a ha => by simpa using hall a ha)]
  have key_none : n = 0 ↔ ∀ o ∈ L, o.status ≠ OrderStatus.filled := by
    rw [hn, List.length_eq_zero, List.filter_eq_nil_iff]
    simp
  have key_some : 0 < n ↔ ∃ o ∈ L, o.status = OrderStatus.filled := by
    rw [Nat.pos_iff_ne_zero, Ne, key_none]
    push_neg
    rfl
  have key_notall : (∃ o ∈ L, o.status ≠ OrderStatus.filled) ↔ ¬(n = L.length) := by
    rw [key_all]
    push_neg
    rfl
  refine ⟨?_, ?_, ?_, ?_⟩
  · by_cases h1 : n = L.length
    · simp only [hNn, hNt, h1, if_true]
      exact iff_of_true trivial (key_all.mp h1)
    · simp only [hNn, hNt, h1, if_false]
      rw [← key_all]
      by_cases h2 : 0 < n <;> simp [h1, h2]
  · by_cases h1 : n = L.length
    · simp only [hNn, hNt, h1, if_true]
      constructor
      · intro hc; exact absurd hc (by simp)
      · rintro ⟨-, hex⟩
        exact absurd h1 (key_notall.mp hex)
    · by_cases h2 : 0 < n
      · simp only [hNn, hNt, h1, if_false, h2, if_true]
        exact iff_of_true trivial ⟨key_some.mp h2, key_notall.mpr h1⟩
      · simp only [hNn, hNt, h1, if_false, h2]
        constructor
        · intro hc; exact absurd hc (by simp)
        · rintro ⟨hex, -⟩
          exact absurd (key_some.mpr hex) h2
  · by_cases h1 : n = L.length
    · simp only [hNn, hNt, h1, if_true]
      constructor
      · intro hc; exact absurd hc (by simp)
      · intro hall
        have hz : n = 0 := key_none.mpr hall
        rw [hz] at h1
        exact absurd h1.symm hNpos
    · by_cases h2 : 0 < n
      · simp only [hNn, hNt, h1, if_false, h2, if_true]
        constructor
        · intro hc; exact absurd hc (by simp)
        · intro hall
          exact absurd (key_none.mpr hall) (Nat.pos_iff_ne_zero.mp h2)
      · simp only [hNn, hNt, h1, if_false, h2, if_false]
        have hz : n = 0 := Nat.eq_zero_of_not_pos h2
        exact iff_of_true trivial (key_none.mp hz)
  · simp only [BasketResult.fill_rate, BasketResult.orders_filled, BasketResult.orders_total]
    rw [if_neg hNpos]

/-- C6 witness: the concrete three-leg basket with legs [Filled, Failed, Filled] passes validation, reports Partial and fill_rate 2/3. -/
theorem c6_witness :
    (validate_signal_group fixtureLiveCfg fixtureGroup).1 = true ∧
    ((execute_basket fixtureLiveCfg fixtureLegExec fixtureGroup).order_results.map
        OrderResult.status = [OrderStatus.filled, OrderStatus.failed, OrderStatus.filled]) ∧
    (execute_basket fixtureLiveCfg fixtureLegExec fixtureGroup).status = BasketStatus.partFilled ∧
    (execute_basket fixtureLiveCfg fixtureLegExec fixtureGroup).fill_rate = 2/3 ∧
    ((execute_basket fixtureLiveCfg fixtureLegExec fixtureGroup).status = BasketStatus.partFilled ↔
      ((∃ o ∈ (execute_basket fixtureLiveCfg fixtureLegExec fixtureGroup).order_results,
          o.status = OrderStatus.filled) ∧
       (∃ o ∈ (execute_basket fixtureLiveCfg fixtureLegExec fixtureGroup).order_results,
          o.status ≠ OrderStatus.filled))) := by
  have hv : (validate_signal_group fixtureLiveCfg fixtureGroup).1 = true := by
    have : validate_signal_group fixtureLiveCfg fixtureGroup = (true, none) := by
      simp [validate_signal_group, fixtureLiveCfg, fixtureGroup, fixtureSignal]
      norm_num
    rw [this]
  have hvfull : validate_signal_group fixtureLiveCfg fixtureGroup = (true, none) := by
    simp [validate_signal_group, fixtureLiveCfg, fixtureGroup, fixtureSignal]
    norm_num
  refine ⟨hv, ?_, ?_, ?_, (c6_statuses fixtureLiveCfg fixtureLegExec fixtureGroup hv).2.1⟩
  · simp only [execute_basket, hvfull]
    simp [fixtureLegExec, execute_single_order, fixtureGroup, fixtureSignal, fixtureLiveCfg]
  · simp only [execute_basket, hvfull]
    simp [fixtureLegExec, execute_single_order, fixtureGroup, fixtureSignal, fixtureLiveCfg,
      BasketResult.orders_filled, BasketResult.orders_total]
  · have h1 : (execute_basket fixtureLiveCfg fixtureLegExec fixtureGroup).orders_filled = 2 := by
      simp only [execute_basket, hvfull]
      simp [fixtureLegExec, execute_single_order, fixtureGroup, fixtureSignal, fixtureLiveCfg,
        BasketResult.orders_filled, BasketResult.orders_total]
    have h2 : (execute_basket fixtureLiveCfg fixtureLegExec fixtureGroup).orders_total = 3 := by
      simp only [execute_basket, hvfull]
      simp [fixtureLegExec, execute_single_order, fixtureGroup, fixtureSignal, fixtureLiveCfg,
        BasketResult.orders_filled, BasketResult.orders_total]
    rw [BasketResult.fill_rate, h1, h2]
    norm_num

/-- C7: when both bid arrays are non-empty (no real ask is supplied), the implied-ask rule gives `best_yes_ask + best_no_bid = 100` and `best_no_ask + best_yes_bid = 100`, exactly. -/
theorem c7_implied_ask_invariant (yes_bids no_bids : List Level)
    (hy : yes_bids ≠ []) (hn : no_bids ≠ []) :
    ∃ p, extract_best_prices yes_bids no_bids = some p ∧
      ∃ ya na, p.best_yes_ask = some ya ∧ p.best_no_ask = some na ∧
        ya + p.best_no_bid = 100 ∧ na + p.best_yes_bid = 100 := by
  rw [extract_best_prices]
  rw [if_neg (by simp [hy, hn])]
  rw [List.getLast?_eq_getLast_of_ne_nil hy, List.getLast?_eq_getLast_of_ne_nil hn]
  simp only [Option.map_some]
  refine ⟨_, rfl, ?_⟩
  simp [MarketPricing.calculate_implied_asks, MarketPricing.calculate_spreads]

/-- C7 witness: the invariant at the concrete book `yes=[[45,100]]`, `no=[[52,150]]`. -/
theorem c7_witness :
    ∃ p, extract_best_prices [(45, 100)] [(52, 150)] = some p ∧
      ∃ ya na, p.best_yes_ask = some ya ∧ p.best_no_ask = some na ∧
        ya + p.best_no_bid = 100 ∧ na + p.best_yes_bid = 100 :=
  c7_implied_ask_invariant [(45, 100)] [(52, 150)] (by simp) (by simp)

/-- C8: a classification's confidence is 1.0 iff its source is the authoritative metadata flag `api_metadata`; collateral-type inference yields 0.9, keyword disqualify/qualify matches yield 0.6/0.5, and no match yields 0. -/
theorem c8_confidence_provenance (md : Option EventMetadata) (et : String) :
    ((classify md et).confidence = 1 ↔ (classify md et).source = "api_metadata") ∧
    ((classify md et).source = "collateral_type" → (classify md et).confidence = 9/10) ∧
    ((∃ k, (classify md et).source = "keyword_disqualify:" ++ k) →
      (classify md et).confidence = 3/5) ∧
    ((∃ k, (classify md et).source = "keyword_qualify:" ++ k) →
      (classify md et).confidence = 1/2) ∧
    ((classify md et).source = "no_match" → (classify md et).confidence = 0) := by
  rcases classify_shape md et with ⟨hs, hc⟩ | ⟨hs, hc⟩ | ⟨k, hs, hc⟩ | ⟨k, hs, hc⟩ | ⟨hs, hc⟩ <;>
    rw [hs, hc]
  · refine ⟨by simp, ?_, ?_, ?_, ?_⟩
    · intro h; exact absurd h (by decide)
    · rintro ⟨k', hk⟩
      have := congrArg (fun s => s.data.take 3) hk
      simp [String.data_append] at this
    · rintro ⟨k', hk⟩
      have := congrArg (fun s => s.data.take 3) hk
      simp [String.data_append] at this
    · intro h; exact absurd h (by decide)
  · refine ⟨?_, fun _ => rfl, ?_, ?_, ?_⟩
    · constructor
      · intro h; norm_num at h
      · intro h; exact absurd h (by decide)
    · rintro ⟨k', hk⟩
      have := congrArg (fun s => s.data.take 3) hk
      simp [String.data_append] at this
    · rintro ⟨k', hk⟩
      have := congrArg (fun s => s.data.take 3) hk
      simp [String.data_append] at this
    · intro h; exact absurd h (by decide)
  · refine ⟨?_, ?_, fun _ => rfl, ?_, ?_⟩
    · constructor
      · intro h; norm_num at h
      · intro h
        have := congrArg (fun s => s.data.take 3) h
        simp [String.data_append] at this
    · intro h
      have := congrArg (fun s => s.data.take 3) h
      simp [String.data_append] at this
    · rintro ⟨k', hk⟩
      have := congrArg (fun s => s.data.take 9) hk
      simp [String.data_append] at this
    · intro h
      have := congrArg (fun s => s.data.take 3) h
      simp [String.data_append] at this
  · refine ⟨?_, ?_, ?_, fun _ => rfl, ?_⟩
    · constructor
      · intro h; norm_num at h
      · intro h
        have := congrArg (fun s => s.data.take 3) h
        simp [String.data_append] at this
    · intro h
      have := congrArg (fun s => s.data.take 3) h
      simp [String.data_append] at this
    · rintro ⟨k', hk⟩
      have := congrArg (fun s => s.data.take 9) hk
      simp [String.data_append] at this
    · intro h
      have := congrArg (fun s => s.data.take 3) h
      simp [String.data_append] at this
  · refine ⟨?_, ?_, ?_, ?_, fun _ => rfl⟩
    · constructor
      · intro h; norm_num at h
      · intro h; exact absurd h (by decide)
    · intro h; exact absurd h (by decide)
    · rintro ⟨k', hk⟩
      have := congrArg (fun s => s.data.take 3) hk
      simp [String.data_append] at this
    · rintro ⟨k', hk⟩
      have := congrArg (fun s => s.data.take 3) hk
      simp [String.data_append] at this

/-- C8 witness: the statement at metadata carrying an explicit `mutually_exclusive=true` flag. -/
theorem c8_witness :
    ((classify (some { mutually_exclusive := some true }) "KXNEWPOPE").confidence = 1 ↔
      (classify (some { mutually_exclusive := some true }) "KXNEWPOPE").source = "api_metadata") ∧
    ((classify (some { mutually_exclusive := some true }) "KXNEWPOPE").source = "collateral_type" →
      (classify (some { mutually_exclusive := some true }) "KXNEWPOPE").confidence = 9/10) ∧
    ((∃ k, (classify (some { mutually_exclusive := some true }) "KXNEWPOPE").source = "keyword_disqualify:" ++ k) →
      (classify (some { mutually_exclusive := some true }) "KXNEWPOPE").confidence = 3/5) ∧
    ((∃ k, (classify (some { mutually_exclusive := some true }) "KXNEWPOPE").source = "keyword_qualify:" ++ k) →
      (classify (some { mutually_exclusive := some true }) "KXNEWPOPE").confidence = 1/2) ∧
    ((classify (some { mutually_exclusive := some true }) "KXNEWPOPE").source = "no_match" →
      (classify (some { mutually_exclusive := some true }) "KXNEWPOPE").confidence = 0) :=
  c8_confidence_provenance (some { mutually_exclusive := some true }) "KXNEWPOPE"

/-- C9: a kill switch observed at leg time short-circuits that leg to Cancelled, yet `execute_basket` only ever returns Complete, Partial or Failed — never Cancelled — because the final-status computation distinguishes only Filled from non-Filled legs. -/
theorem c9_never_cancelled :
    (∀ (cfg : ExecConfig) (outcome : LiveOutcome) (s : Signal),
      (execute_single_order cfg true outcome s).status = OrderStatus.cancelled) ∧
    (∀ (cfg : ExecConfig) (legExec : Signal → OrderResult) (sg : SignalGroup),
      (execute_basket cfg legExec sg).status = BasketStatus.complete ∨
      (execute_basket cfg legExec sg).status = BasketStatus.partFilled ∨
      (execute_basket cfg legExec sg).status = BasketStatus.failed) := by
  constructor
  · intro cfg outcome s
    simp [execute_single_order]
  · intro cfg legExec sg
    rcases hb : (validate_signal_group cfg sg).1 with _ | _
    · right; right
      simp [execute_basket, hb]
    · simp only [execute_basket, hb, eq_self_iff_true, not_true, if_false]
      split_ifs <;> simp

/-- C9 witness: the basket whose every leg is Cancelled by the kill switch still ends Complete, Partial or Failed. -/
theorem c9_witness :
    (execute_basket fixtureLiveCfg fixtureKilledLegExec fixtureGroup).status = BasketStatus.complete ∨
    (execute_basket fixtureLiveCfg fixtureKilledLegExec fixtureGroup).status = BasketStatus.partFilled ∨
    (execute_basket fixtureLiveCfg fixtureKilledLegExec fixtureGroup).status = BasketStatus.failed :=
  c9_never_cancelled.2 fixtureLiveCfg fixtureKilledLegExec fixtureGroup

/-- C10: a one-sided book yields pricing with `best_yes_ask`, `best_no_ask` and both spreads `none` (no implied ask), and `_analyze_event` excludes such a market from both sums, the included-market list and the valid-market count — only `total_markets` and the volume aggregate see it. -/
theorem c10_one_sided_excluded (yes_bids no_bids : List Level)
    (h : (yes_bids = [] ∧ no_bids ≠ []) ∨ (yes_bids ≠ [] ∧ no_bids = [])) :
    ∃ p, extract_best_prices yes_bids no_bids = some p ∧
      p.best_yes_ask = none ∧ p.best_no_ask = none ∧
      p.yes_spread = none ∧ p.no_spread = none ∧
      ∀ (cfg : StrategyConfig) (et : String)
        (pre post : List MarketWithOrderbook) (mi : MarketInfo)
        (ob : Option (List Level × List Level)),
        (analyze_event cfg et (pre ++ ⟨mi, ob, some p⟩ :: post)).sum_yes_asks
          = (analyze_event cfg et (pre ++ post)).sum_yes_asks ∧
        (analyze_event cfg et (pre ++ ⟨mi, ob, some p⟩ :: post)).sum_yes_bids
          = (analyze_event cfg et (pre ++ post)).sum_yes_bids ∧
        (analyze_event cfg et (pre ++ ⟨mi, ob, some p⟩ :: post)).markets
          = (analyze_event cfg et (pre ++ post)).markets ∧
        (analyze_event cfg et (pre ++ ⟨mi, ob, some p⟩ :: post)).market_count
          = (analyze_event cfg et (pre ++ post)).market_count ∧
        (analyze_event cfg et (pre ++ ⟨mi, ob, some p⟩ :: post)).total_markets
          = (analyze_event cfg et (pre ++ post)).total_markets + 1 := by
  obtain ⟨p, hp, hya, hna, hys, hns, _, _⟩ := extract_one_sided yes_bids no_bids h
  refine ⟨p, hp, hya, hna, hys, hns, ?_⟩
  intro cfg et pre post mi ob
  have hnv : ¬ValidMarket cfg ⟨mi, ob, some p⟩ := by
    rintro ⟨q, ask, hq, hask, -, -⟩
    have : q = p := (Option.some.inj hq).symm
    subst this
    rw [hya] at hask
    exact Option.noConfusion hask
  have key : SameCore
      ((pre ++ ⟨mi, ob, some p⟩ :: post).foldl (analyzeStep cfg) ⟨0, 0, [], 0⟩)
      ((pre ++ post).foldl (analyzeStep cfg) ⟨0, 0, [], 0⟩) := by
    rw [List.foldl_append, List.foldl_append, List.foldl_cons]
    apply sameCore_foldl
    obtain ⟨e1, e2, e3, _⟩ :=
      analyzeStep_skip cfg (pre.foldl (analyzeStep cfg) ⟨0, 0, [], 0⟩) ⟨mi, ob, some p⟩ hnv
    exact ⟨e1, e2, e3⟩
  obtain ⟨k1, k2, k3⟩ := key
  refine ⟨?_, ?_, ?_, ?_, ?_⟩
  · simpa [analyze_event] using k1
  · simpa [analyze_event] using k2
  · simpa [analyze_event] using k3
  · simpa [analyze_event] using congrArg List.length k3
  · simp [analyze_event]
    omega

/-- C10 witness: the exclusion statement at the concrete one-sided book `yes=[[45,100]]`, `no=[]`. -/
theorem c10_witness :
    ∃ p, extract_best_prices [(45, 100)] [] = some p ∧
      p.best_yes_ask = none ∧ p.best_no_ask = none ∧
      p.yes_spread = none ∧ p.no_spread = none ∧
      ∀ (cfg : StrategyConfig) (et : String)
        (pre post : List MarketWithOrderbook) (mi : MarketInfo)
        (ob : Option (List Level × List Level)),
        (analyze_event cfg et (pre ++ ⟨mi, ob, some p⟩ :: post)).sum_yes_asks
          = (analyze_event cfg et (pre ++ post)).sum_yes_asks ∧
        (analyze_event cfg et (pre ++ ⟨mi, ob, some p⟩ :: post)).sum_yes_bids
          = (analyze_event cfg et (pre ++ post)).sum_yes_bids ∧
        (analyze_event cfg et (pre ++ ⟨mi, ob, some p⟩ :: post)).markets
          = (analyze_event cfg et (pre ++ post)).markets ∧
        (analyze_event cfg et (pre ++ ⟨mi, ob, some p⟩ :: post)).market_count
          = (analyze_event cfg et (pre ++ post)).market_count ∧
        (analyze_event cfg et (pre ++ ⟨mi, ob, some p⟩ :: post)).total_markets
          = (analyze_event cfg et (pre ++ post)).total_markets + 1 :=
  c10_one_sided_excluded [(45, 100)] [] (Or.inr ⟨by simp, rfl⟩)

end KalshiQuant
